import Mathlib

/-!
Verification development for the Incapsula logs-downloader client
(`LogsDownloader.py`).  The Python source is shallowly embedded: strings
are `List Char`, the filesystem / network side effects are threaded
through an explicit state record and oracle functions, and the perpetual
retry loop of `handle_file` is fuel-indexed (a `fuelOut` outcome marks an
execution that is still looping when the fuel runs out, so `∀ fuel`
statements about `fuelOut` prove genuine non-termination).
-/

namespace LogsDownloader

/-- Strings are modelled as lists of characters so that every operation is
a plain structural recursion. -/
abbrev Str := List Char

/-- Conversion from a Lean string literal to the character-list model. -/
def chars (s : String) : Str := s.data

/-- Python `str.isspace` characters, as used by `str.rstrip()` with no
argument (space, tab, newline, carriage return, vertical tab, form feed). -/
def pyIsSpace (c : Char) : Bool :=
  c = ' ' || c = '\t' || c = '\n' || c = '\r' || c = '\x0b' || c = '\x0c'

/-- Strip trailing characters satisfying `p` (the semantics of Python
`str.rstrip`, generalised over the character predicate). -/
def rstripBy (p : Char → Bool) (s : Str) : Str :=
  ((s.reverse).dropWhile p).reverse

/-- Python `s.rstrip()` — strip trailing whitespace. -/
def pyRstrip (s : Str) : Str := rstripBy pyIsSpace s

/-- Python `s.lstrip()` — strip leading whitespace. -/
def pyLstrip (s : Str) : Str := s.dropWhile pyIsSpace

/-- Python `s.strip()` — strip whitespace on both sides. -/
def pyStrip (s : Str) : Str := pyLstrip (pyRstrip s)

/-- Python `s.rstrip(cs)` — strip any trailing characters that are members
of the character set `cs`. -/
def rstripSet (cs : List Char) (s : Str) : Str :=
  rstripBy (fun c => cs.contains c) s

/-- Python `s.split(sep)` for a one-character separator: keeps empty
fields, always returns at least one (possibly empty) field. -/
def pySplit (sep : Char) : Str → List Str
  | [] => [[]]
  | c :: rest =>
    match pySplit sep rest with
    | [] => [[]]
    | t :: ts => if c = sep then [] :: t :: ts else (c :: t) :: ts

/-- Numeric value of a list of decimal digits (most significant first). -/
def digitsToNat (s : Str) : Nat :=
  s.foldl (fun a c => a * 10 + (c.toNat - '0'.toNat)) 0

/-- Python `int(s)` for the inputs that occur in this program: a non-empty
string of decimal digits parses to its value, anything else raises
`ValueError` (modelled as `none`).  (Sign characters and surrounding
whitespace, which Python `int` would also accept, never occur in the
file-name fragments this program parses.) -/
def pyInt (s : Str) : Option Nat :=
  if s ≠ [] ∧ s.all Char.isDigit then some (digitsToNat s) else none

/-- Decimal rendering of a natural number, the model of Python `str(n)`. -/
def natToChars (n : Nat) : Str := Nat.toDigits 10 n

/-- Maximal leading run of decimal digits and the remainder of the string. -/
def takeDigits (s : Str) : Str × Str :=
  (s.takeWhile Char.isDigit, s.dropWhile Char.isDigit)

/-! ### `LastFileId` — the cursor store

The persisted cursor is the content of `LastKnownDownloadedFileId.txt`,
modelled as `Option Str` (`none` = the file does not exist). -/

/-- `LastFileId.get_last_log_id`: read the cursor file and strip trailing
whitespace; an absent file yields the empty string. -/
def get_last_log_id (file : Option Str) : Str :=
  match file with
  | none => []
  | some content => pyRstrip content

/-- `LastFileId.update_last_log_id`: overwrite the cursor file with the
given id. -/
def update_last_log_id (last_id : Str) (_file : Option Str) : Option Str :=
  some last_id

/-- `LastFileId.get_next_file_name`, as a function of the current cursor
string: split on `'_'`, strip trailing `'.'`/`'l'`/`'o'`/`'g'` characters
from the second field, parse it as an integer, add one, and rebuild
`<first>_<n+1>.log`.  `none` models the uncaught `IndexError`/`ValueError`
when the split has no second field or the field does not parse. -/
def get_next_file_name (curr : Str) : Option Str :=
  match pySplit '_' curr with
  | a0 :: a1 :: _ =>
    match pyInt (rstripSet ['.', 'l', 'o', 'g'] a1) with
    | some curr_id =>
      some (a0 ++ '_' :: (natToChars (curr_id + 1) ++ chars (".log")))
    | none => none
  | _ => none

/-! ### `LogsFileIndex` — index-listing validation

`validate_logs_index_file_format` is Python
`re.match("(\d+_\d+\.log\n)+", content)`: `re.match` anchors only at the
start of the string, so the whole pattern succeeds exactly when at least
one `<digits>_<digits>.log\n` block matches at position 0 (the `+` then
greedily consumes further blocks, but their absence cannot make the match
fail). -/

/-- Consume one `<digits>_<digits>.log\n` block from the front of the
content, returning the remainder; `none` when no block matches there.
The regex sub-pattern is deterministic: `\d+` is greedy and none of the
following literal characters are digits, so no backtracking arises. -/
def consumeBlock (s : Str) : Option Str :=
  let (d1, r1) := takeDigits s
  if d1.isEmpty then none
  else
    match r1 with
    | '_' :: r2 =>
      let (d2, r3) := takeDigits r2
      if d2.isEmpty then none
      else
        match r3 with
        | '.' :: 'l' :: 'o' :: 'g' :: '\n' :: rest => some rest
        | _ => none
    | _ => none

/-- `LogsFileIndex.validate_logs_index_file_format`. -/
def validate_logs_index_file_format (content : Str) : Bool :=
  (consumeBlock content).isSome

/-- Modelled from the spec's words (refinement reference, not from the
source): a single listing line of the exact form `<digits>_<digits>.log`,
the shape the spec demands of *every* line of the index. -/
def spec_file_name (s : Str) : Bool :=
  let (d1, r1) := takeDigits s
  match r1 with
  | '_' :: r2 =>
    let (d2, r3) := takeDigits r2
    !d1.isEmpty && !d2.isEmpty && decide (r3 = chars (".log"))
  | _ => false

/-! ### `FileDownloader.request_file_content` and
`LogsDownloader.download_log_file` -/

/-- An HTTP response from the remote store: final status code and body. -/
structure HttpResp where
  status : Nat
  content : Str
deriving DecidableEq

/-- `FileDownloader.request_file_content`, as a function of the response
the transport produced.  `Except.error msg` models a raised `Exception`
with the given message; the normal return value is a Python value that is
either a string (`some s`) or `None` (`none`): 200 returns the body, any
other non-error status (`raise_for_status` only raises for status ≥ 400)
merely logs and closes the connection, and the function falls off the end
returning `None`; 404 returns the literal marker string; 401 / 429 /
other HTTP errors raise distinct exceptions. -/
def request_file_content (r : HttpResp) : Except Str (Option Str) :=
  if r.status = 200 then Except.ok (some r.content)
  else if r.status < 400 then Except.ok none
  else if r.status = 404 then Except.ok (some (chars ("404_NOT_FOUND")))
  else if r.status = 401 then Except.error (chars ("Authorization error"))
  else if r.status = 429 then Except.error (chars ("Rate limit error"))
  else Except.error (chars ("Connection error"))

/-- The value `download_log_file` hands back to `handle_file`.  The normal
paths return a pair `(tag, content)` whose content is a string or `None`;
the exception path executes `return "ERROR"`, which is a *bare string*,
not a pair — this distinction is observable because the caller indexes
`result[0]`. -/
inductive DlRes where
  | tup (tag : Str) (content : Option Str)
  | bare (s : Str)
deriving DecidableEq

/-- Python `result[0]`: the first component of a pair, or the first
character (as a one-character string) of a bare string. -/
def result_fst : DlRes → Str
  | .tup t _ => t
  | .bare s => s.take 1

/-- Python `result[1]`: the second component of a pair, or the second
character of a bare string. -/
def result_snd : DlRes → Option Str
  | .tup _ c => c
  | .bare s => some ((s.drop 1).take 1)

/-- `LogsDownloader.download_log_file`, as a function of the HTTP response
for the requested file.  The test `file_content != "" and file_content !=
"404_NOT_FOUND"` is against the Python value returned by
`request_file_content`: a nonempty string that is not the marker — but
also `None` (which Python deems unequal to both strings) — lands in
`("OK", content)`; the marker maps to `("404_NOT_FOUND", content)`; the
empty string maps to `("NOT_FOUND", content)`; any exception is caught
and the bare string `"ERROR"` is returned. -/
def download_log_file (r : HttpResp) : DlRes :=
  match request_file_content r with
  | .error _ => .bare (chars ("ERROR"))
  | .ok c =>
    if c ≠ some [] ∧ c ≠ some (chars ("404_NOT_FOUND")) then
      .tup (chars ("OK")) c
    else if c = some (chars ("404_NOT_FOUND")) then
      .tup (chars ("404_NOT_FOUND")) c
    else .tup (chars ("NOT_FOUND")) c

/-! ### The mutable state threaded through `handle_file` and the
steady-state loop. -/

/-- Observable state: the cursor file, the sequence of writes into the
`fail` quarantine folder, the sleeps performed, and how many file
downloads / fresh index fetches have been issued (indices into the
corresponding oracle streams). -/
structure St where
  cursorFile : Option Str
  quarantine : List (Str × Str)
  sleeps : List Nat
  dlCount : Nat
  idxCount : Nat
deriving DecidableEq

/-- Scanner for Python `re.search('((?<=_)\\d+)(?=\\.)', s)`: walk the
string remembering the previous character; at the first position whose
previous character is `'_'` and which starts a digit run followed by
`'.'`, return the run's value.  (The lookbehind forces every candidate
start to sit right after an underscore, and since `\d+` is greedy and a
shorter run would end at a digit rather than at `'.'`, the matched text
is always the full digit run.) -/
def seqSearchAux : Char → Str → Option Nat
  | _, [] => none
  | prev, c :: rest =>
    if prev = '_' ∧ c.isDigit then
      match takeDigits (c :: rest) with
      | (d, '.' :: _) => some (digitsToNat d)
      | _ => seqSearchAux c rest
    else seqSearchAux c rest

/-- `int(re.search('((?<=_)\\d+)(?=\\.)', s).group(0))`; `none` models the
`AttributeError` raised by `.group` when the search finds no match. -/
def seqOf (s : Str) : Option Nat := seqSearchAux '\x00' s

/-- The `404_NOT_FOUND` branch of `handle_file` (the in-line resync
snippet), as a function of the current `logfile`, the consecutive-miss
counter `failcount`, the freshly fetched index content `data`, and the
state.  `none` models an uncaught exception (the `[-2]` index on a
listing with fewer than two `'\n'`-separated fields, or `re.search`
returning `None` so that `.group(0)` raises); within one invocation every
such exception fires before any state mutation. -/
def resync_snippet (logfile : Str) (failcount : Nat) (data : Str) (st : St) :
    Option (Str × Nat × St) :=
  let lines := pySplit '\n' data
  let first_logfile := lines.headD []
  if lines.length < 2 then none
  else
    let last_logfile := lines.getD (lines.length - 2) []
    match seqOf logfile, seqOf first_logfile with
    | some a, some b =>
      if a < b then
        some (first_logfile, failcount,
          { st with cursorFile := update_last_log_id first_logfile st.cursorFile })
      else
        match seqOf last_logfile with
        | some k =>
          if k < a then
            let failcount := failcount + 1
            if 3 < failcount then
              some (first_logfile, failcount,
                { st with cursorFile := update_last_log_id first_logfile st.cursorFile })
            else
              some (logfile, failcount, { st with sleeps := st.sleeps ++ [10] })
          else
            let candidates := (lines.drop 1).take (lines.length - 4)
            if candidates.contains logfile then
              some (logfile, failcount,
                { st with cursorFile := update_last_log_id logfile st.cursorFile })
            else
              some (logfile, failcount, st)
        | none => none
    | _, _ => none

/-- Outcome of a (fuel-bounded) run of `handle_file`: a normal `return`
with a success flag, an uncaught exception escaping to the caller, or
exhaustion of the fuel while the `while` loop is still running (so a
`∀ fuel` statement about `fuelOut` expresses true non-termination). -/
inductive HFOut where
  | ret (success : Bool) (st : St)
  | exc (st : St)
  | fuelOut (st : St)
deriving DecidableEq

/-- Is the outcome a fuel exhaustion? -/
def HFOut.isFuelOut : HFOut → Bool
  | .fuelOut _ => true
  | _ => false

section

variable (dl : Nat → HttpResp) (idx : Nat → Str)
variable (process : Str → Str → Bool) (running : Bool) (wait_time : Nat)

/-- The body of `handle_file`'s `while counter <= 3` loop.  `dl` is the
stream of HTTP responses for successive file downloads, `idx` the stream
of index contents for successive fresh index fetches inside the 404
branch, and `process logfile content` abstracts the
`decrypt_file` + `handle_log_decrypted_content` pair (`false` = one of
them raised, sending the raw content to the `fail` folder and breaking
out of the loop).  Note the branch dispatch: the exception path of
`download_log_file` produced the *bare string* `"ERROR"`, whose
`result[0]` is the one-character string `"E"` — it matches none of the
`"OK"` / `"404_NOT_FOUND"` / `"NOT_FOUND"` / `"ERROR"` comparisons, so
that iteration increments nothing and the loop repeats. -/
def handle_file_go : Nat → Nat → Nat → Str → St → HFOut
  | 0, counter, _, _, st =>
    if counter ≤ 3 then .fuelOut st else .ret false st
  | fuel + 1, counter, failcount, logfile, st =>
    if counter ≤ 3 then
      (if running then
          -- `result = download_log_file(...)`, then `result[0]` dispatch;
          -- the downloaded state has `dlCount` bumped by one
          if result_fst (download_log_file (dl st.dlCount)) = chars ("OK") then
            match result_snd (download_log_file (dl st.dlCount)) with
            | some content =>
              if process logfile content then
                .ret true { st with dlCount := st.dlCount + 1 }
              else
                -- raw content is written verbatim to the 'fail' folder and
                -- the loop is exited by `break`, falling to `return False`
                .ret false
                  { st with
                    dlCount := st.dlCount + 1
                    quarantine := st.quarantine ++ [(logfile, content)] }
            | none =>
              -- an ("OK", None) result (non-200 status below 400):
              -- `decrypt_file(None)` raises, and the fail-folder handler
              -- then calls `file.write(None)`, whose TypeError is raised
              -- inside the `except` block and escapes `handle_file`
              .exc { st with dlCount := st.dlCount + 1 }
          else if result_fst (download_log_file (dl st.dlCount)) =
              chars ("404_NOT_FOUND") then
            -- `counter += 1`, fresh index fetch, then the resync snippet
            match resync_snippet logfile failcount (idx st.idxCount)
                { st with dlCount := st.dlCount + 1, idxCount := st.idxCount + 1 } with
            | none =>
              .exc { st with dlCount := st.dlCount + 1, idxCount := st.idxCount + 1 }
            | some (logfile2, failcount2, st2) =>
              handle_file_go fuel (counter + 1) failcount2 logfile2
                (if 0 < wait_time ∧ counter + 1 ≤ 2 then
                  { st2 with sleeps := st2.sleeps ++ [wait_time] }
                else st2)
          else if result_fst (download_log_file (dl st.dlCount)) = chars ("NOT_FOUND") ∨
              result_fst (download_log_file (dl st.dlCount)) = chars ("ERROR") then
            -- `counter += 1`, then the shared sleep check
            handle_file_go fuel (counter + 1) failcount logfile
              (if 0 < wait_time ∧ counter + 1 ≤ 2 then
                { st with dlCount := st.dlCount + 1, sleeps := st.sleeps ++ [wait_time] }
              else { st with dlCount := st.dlCount + 1 })
          else
            -- no branch matches (this is where the bare "ERROR" lands):
            -- counter and failcount are untouched and the loop repeats
            handle_file_go fuel counter failcount logfile
              (if 0 < wait_time ∧ counter ≤ 2 then
                { st with dlCount := st.dlCount + 1, sleeps := st.sleeps ++ [wait_time] }
              else { st with dlCount := st.dlCount + 1 })
      else .ret false st)
    else .ret false st

/-- `LogsDownloader.handle_file`: run the retry loop from
`counter = failcount = 0`. -/
def handle_file (logfile : Str) (st : St) (fuel : Nat) : HFOut :=
  handle_file_go dl idx process running wait_time fuel 0 0 logfile st

/-- Outcome of one STEADY-state iteration of `get_log_files`. -/
inductive StepOut where
  | done (st : St)
  | raised
  | fuelOut
deriving DecidableEq

/-- One iteration of the `else` (STEADY) branch of
`LogsDownloader.get_log_files`: compute the next file name from the
cursor (an exception here is *outside* the `try` and crashes the worker:
`raised`), run `handle_file` with `wait_time = 3` (its exceptions are
caught and logged), and on success run `move_to_next_file`, which writes
`get_next_file_name()` *recomputed from the current cursor* into the
cursor file (an exception there is caught by the same `try`). -/
def steady_iteration (st : St) (fuel : Nat) : StepOut :=
  match get_next_file_name (get_last_log_id st.cursorFile) with
  | none => .raised
  | some next_file =>
    match handle_file dl idx process running 3 next_file st fuel with
    | .fuelOut _ => .fuelOut
    | .exc st' => .done st'
    | .ret success st' =>
      if success then
        match get_next_file_name (get_last_log_id st'.cursorFile) with
        | none => .done st'
        | some nf2 =>
          .done { st' with cursorFile := update_last_log_id nf2 st'.cursorFile }
      else .done st'

end

/-! ### `handle_log_decrypted_content` — the delivery dispatcher -/

/-- The configuration fields the dispatcher consults.  The enable flags
are the raw configuration strings (the code compares them with `"YES"`
and, for the SFTP step, separately with `"NO"`). -/
structure DispatchCfg where
  syslogEnable : Str
  saveLocally : Str
  sftpTransfer : Str
  syslogAddress : Str
deriving DecidableEq

/-- Which dispatcher steps ran and how they fared. -/
structure DispatchRec where
  chosen : Option Str
  syslogDone : Bool
  localDone : Bool
  sftpUploaded : Bool
  sftpErr : Bool
  gzipRan : Bool
  gzipErr : Bool
deriving DecidableEq

/-- `LogsDownloader.sftp_upload_file`: the whole body is wrapped in
`try/except`, so a failing upload is caught, logged and reported by the
*return value* `"ERROR"` — it never raises to the caller.  `ok` abstracts
whether the transfer succeeded. -/
def sftp_upload_file (ok : Bool) : Option Str :=
  if ok then none else some (chars ("ERROR"))

/-- `LogsDownloader.gzip_file`: likewise fully wrapped in `try/except`;
a failure is caught and reported by returning `"ERROR"`. -/
def gzip_file (ok : Bool) : Option Str :=
  if ok then none else some (chars ("ERROR"))

/-- `LogsDownloader.handle_log_decrypted_content`.  `emitOk` / `localOk`
abstract whether the syslog emission and the local append raise;
`sftpOk` / `gzipOk` whether the (internally caught) SFTP upload and
compression succeed; `pick` models `random.choice` over the server list.
The first component is `some msg` when the call raises `msg` to
`handle_file` (which then quarantines the file and reports failure).
Note: when `SFTP_TRANSFER == "YES"`, after the upload the code evaluates
`self.upfile` — an attribute that was never assigned (only the local
variable `upfile` exists) — so an `AttributeError` is raised
unconditionally before `gzip_file` can run. -/
def handle_log_decrypted_content (cfg : DispatchCfg)
    (emitOk localOk sftpOk gzipOk : Bool) (pick : Nat) :
    Option Str × DispatchRec :=
  let servers := (pySplit ',' cfg.syslogAddress).map pyStrip
  let rec0 : DispatchRec := ⟨none, false, false, false, false, false, false⟩
  let chosen := servers.getD (pick % servers.length) []
  if cfg.syslogEnable = chars ("YES") ∧ emitOk = false then
    (some (chars ("syslog emitter raised")), { rec0 with chosen := some chosen })
  else
    let r1 :=
      if cfg.syslogEnable = chars ("YES") then
        { rec0 with chosen := some chosen, syslogDone := true }
      else rec0
    if cfg.saveLocally = chars ("YES") ∧ localOk = false then
      (some (chars ("local append raised")), r1)
    else
      let r2 :=
        if cfg.saveLocally = chars ("YES") then { r1 with localDone := true }
        else r1
      if cfg.sftpTransfer = chars ("YES") then
        let sres := sftp_upload_file sftpOk
        (some (chars ("AttributeError")),
          { r2 with sftpUploaded := true, sftpErr := sres.isSome })
      else
        let r3 :=
          if cfg.sftpTransfer = chars ("NO") then
            let gres := gzip_file gzipOk
            { r2 with gzipRan := true, gzipErr := gres.isSome }
          else r2
        (none, r3)

/-- The `process` oracle of `handle_file` induced by a trivially
successful decryption followed by the dispatcher with the given
configuration and sink outcomes. -/
def dispatch_process (cfg : DispatchCfg)
    (emitOk localOk sftpOk gzipOk : Bool) (pick : Nat) : Str → Str → Bool :=
  fun _ _ =>
    (handle_log_decrypted_content cfg emitOk localOk sftpOk gzipOk pick).fst.isNone

/-! ## Helper lemmas -/

lemma dropWhile_append_of_all {p : Char → Bool} :
    ∀ (a b : Str), (∀ c ∈ a, p c = true) →
      List.dropWhile p (a ++ b) = List.dropWhile p b := by
  intro a b h
  induction a with
  | nil => rfl
  | cons c t ih =>
    simp only [List.cons_append, List.dropWhile_cons,
      h c (List.mem_cons_self _ _), if_true]
    exact ih (fun x hx => h x (List.mem_cons_of_mem _ hx))

lemma dropWhile_head_false {p : Char → Bool} :
    ∀ (l : Str), (∀ c, l.head? = some c → p c = false) →
      List.dropWhile p l = l := by
  intro l h
  cases l with
  | nil => rfl
  | cons c t => simp [List.dropWhile_cons, h c rfl]

lemma head_dropWhile_false {p : Char → Bool} :
    ∀ (l : Str) (c : Char), (List.dropWhile p l).head? = some c → p c = false := by
  intro l
  induction l with
  | nil => intro c h; simp [List.dropWhile] at h
  | cons a t ih =>
    intro c h
    by_cases hp : p a
    · rw [List.dropWhile_cons, if_pos hp] at h
      exact ih c h
    · rw [List.dropWhile_cons, if_neg hp] at h
      simp only [List.head?_cons, Option.some.injEq] at h
      subst h
      exact Bool.eq_false_iff.mpr hp

lemma takeWhile_append_of_all {p : Char → Bool} :
    ∀ (a b : Str), (∀ c ∈ a, p c = true) →
      (∀ c, b.head? = some c → p c = false) →
      List.takeWhile p (a ++ b) = a := by
  intro a b ha hb
  induction a with
  | nil =>
    cases b with
    | nil => rfl
    | cons c t => simp [List.takeWhile_cons, hb c rfl]
  | cons c t ih =>
    simp only [List.cons_append, List.takeWhile_cons,
      ha c (List.mem_cons_self _ _), if_true, List.cons.injEq, true_and]
    exact ih (fun x hx => ha x (List.mem_cons_of_mem _ hx))

/-- Destructing `takeDigits`: the two components reassemble the input, the
first is all digits, and the second does not begin with a digit. -/
lemma takeDigits_eq {s d r : Str} (h : takeDigits s = (d, r)) :
    s = d ++ r ∧ (∀ c ∈ d, c.isDigit = true) ∧
      (∀ c, r.head? = some c → c.isDigit = false) := by
  have hd : d = s.takeWhile Char.isDigit := by
    have := congrArg Prod.fst h; simpa [takeDigits] using this.symm
  have hr : r = s.dropWhile Char.isDigit := by
    have := congrArg Prod.snd h; simpa [takeDigits] using this.symm
  subst hd; subst hr
  refine ⟨(List.takeWhile_append_dropWhile Char.isDigit s).symm, ?_, ?_⟩
  · intro c hc; exact List.mem_takeWhile_imp hc
  · intro c hc; exact head_dropWhile_false _ c hc

/-- Computing `takeDigits` on a split input: an all-digit prefix followed
by a non-digit boundary is recovered exactly. -/
lemma takeDigits_append {d r : Str} (hd : ∀ c ∈ d, c.isDigit = true)
    (hr : ∀ c, r.head? = some c → c.isDigit = false) :
    takeDigits (d ++ r) = (d, r) := by
  unfold takeDigits
  rw [takeWhile_append_of_all d r hd hr, dropWhile_append_of_all d r hd,
    dropWhile_head_false r hr]

/-! ## Claim theorems -/

/-- Claim C10: writing an id with `update_last_log_id` and reading it back
with `get_last_log_id` yields the id with its trailing whitespace
stripped (the read applies Python `rstrip()`); when the id has no
trailing whitespace the round trip is the identity. -/
theorem cursor_store_round_trip (f : Option Str) (s : Str) :
    get_last_log_id (update_last_log_id s f) = pyRstrip s
    ∧ (∃ w, s = pyRstrip s ++ w ∧ w.all pyIsSpace = true)
    ∧ (∀ c, (pyRstrip s).getLast? = some c → pyIsSpace c = false)
    ∧ ((∀ c, s.getLast? = some c → pyIsSpace c = false) →
        get_last_log_id (update_last_log_id s f) = s) := by
  refine ⟨rfl, ?_, ?_, ?_⟩
  · refine ⟨((s.reverse).takeWhile pyIsSpace).reverse, ?_, ?_⟩
    · conv_lhs => rw [← List.reverse_reverse s,
        ← List.takeWhile_append_dropWhile (p := pyIsSpace) (l := s.reverse)]
      rw [List.reverse_append]
      rfl
    · simp only [List.all_eq_true, List.mem_reverse]
      intro c hc
      exact List.mem_takeWhile_imp hc
  · intro c hc
    rw [pyRstrip, rstripBy, List.getLast?_reverse] at hc
    exact head_dropWhile_false _ c hc
  · intro h
    show pyRstrip s = s
    rw [pyRstrip, rstripBy, dropWhile_head_false s.reverse
      (fun c hc => h c (by rwa [List.head?_reverse] at hc)),
      List.reverse_reverse]

/-- Claim C10 witness: a concrete round trip, with and without trailing
whitespace. -/
theorem cursor_store_round_trip_witness :
    get_last_log_id (update_last_log_id (chars ("20230101_5.log ")) none) =
      chars ("20230101_5.log")
    ∧ get_last_log_id (update_last_log_id (chars ("20230101_5.log")) none) =
      chars ("20230101_5.log") := by
  constructor
  · have h := (cursor_store_round_trip none (chars ("20230101_5.log "))).1
    rw [h]; decide
  · exact (cursor_store_round_trip none (chars ("20230101_5.log"))).2.2.2
      (by decide)

lemma pySplit_ne_nil (sep : Char) : ∀ s : Str, pySplit sep s ≠ [] := by
  intro s
  cases s with
  | nil => simp [pySplit]
  | cons c t =>
    unfold pySplit
    rcases h : pySplit sep t with _ | ⟨u, us⟩
    · simp
    · by_cases hc : c = sep <;> simp [hc]

lemma pySplit_no_sep (sep : Char) :
    ∀ s : Str, (∀ c ∈ s, c ≠ sep) → pySplit sep s = [s] := by
  intro s h
  induction s with
  | nil => rfl
  | cons c t ih =>
    unfold pySplit
    rw [ih (fun x hx => h x (List.mem_cons_of_mem _ hx))]
    simp [h c (List.mem_cons_self _ _)]

lemma pySplit_prefix (sep : Char) :
    ∀ (p rest : Str), (∀ c ∈ p, c ≠ sep) →
      pySplit sep (p ++ sep :: rest) = p :: pySplit sep rest := by
  intro p rest hp
  induction p with
  | nil =>
    show pySplit sep (sep :: rest) = [] :: pySplit sep rest
    rcases h : pySplit sep rest with _ | ⟨u, us⟩
    · exact absurd h (pySplit_ne_nil sep rest)
    · rw [pySplit, h]; simp
  | cons c p' ih =>
    show pySplit sep (c :: (p' ++ sep :: rest)) = (c :: p') :: pySplit sep rest
    rw [pySplit, ih (fun x hx => hp x (List.mem_cons_of_mem _ hx))]
    simp [hp c (List.mem_cons_self _ _)]

lemma digit_not_in_dotlog {c : Char} (h : c.isDigit = true) :
    (List.contains ['.', 'l', 'o', 'g'] c) = false := by
  simp only [List.contains, List.elem_eq_mem, decide_eq_false_iff_not]
  intro hc
  have : c = '.' ∨ c = 'l' ∨ c = 'o' ∨ c = 'g' := by simpa using hc
  rcases this with rfl | rfl | rfl | rfl <;> exact absurd h (by decide)

lemma digit_ne_underscore {c : Char} (h : c.isDigit = true) : c ≠ '_' := by
  rintro rfl; exact absurd h (by decide)

/-- Stripping the trailing `".log"` with `rstrip(".log")` from a
digit-run followed by `".log"` recovers exactly the digit run (the strip
set `{'.','l','o','g'}` contains no digits). -/
lemma rstripSet_digits_log (n : Str)
    (hdig : n.all Char.isDigit = true) :
    rstripSet ['.', 'l', 'o', 'g'] (n ++ chars (".log")) = n := by
  unfold rstripSet rstripBy
  rw [List.reverse_append]
  rw [dropWhile_append_of_all _ _ (by decide)]
  rw [dropWhile_head_false n.reverse ?_, List.reverse_reverse]
  intro c hc
  rw [List.head?_reverse] at hc
  have hmem : c ∈ n := List.mem_of_getLast?_eq_some hc
  have : c.isDigit = true := by
    rw [List.all_eq_true] at hdig
    exact hdig c hmem
  exact digit_not_in_dotlog this

/-- Claim C9 (amended): on a well-formed `<digits>_<digits>.log` name the
next-file computation increments the sequence within the same prefix; on
the spec's example of a malformed name, `"malformed"`, it raises (the
split has no second field).  (Strings outside the naming scheme whose
second `'_'`-field still parses after stripping — e.g. `"1_2"` — are,
however, accepted rather than rejected; see the counterexample.) -/
theorem get_next_file_name_spec :
    (∀ p n : Str, p ≠ [] → p.all Char.isDigit = true →
      n ≠ [] → n.all Char.isDigit = true →
      get_next_file_name (p ++ '_' :: (n ++ chars (".log"))) =
        some (p ++ '_' :: (natToChars (digitsToNat n + 1) ++ chars (".log"))))
    ∧ get_next_file_name (chars ("malformed")) = none := by
  constructor
  · intro p n hp hpd hn hnd
    rw [List.all_eq_true] at hpd hnd
    unfold get_next_file_name
    have hsplit : pySplit '_' (p ++ '_' :: (n ++ chars (".log"))) =
        p :: pySplit '_' (n ++ chars (".log")) :=
      pySplit_prefix '_' p _ (fun c hc => digit_ne_underscore (hpd c hc))
    have hsplit2 : pySplit '_' (n ++ chars (".log")) = [n ++ chars (".log")] := by
      refine pySplit_no_sep '_' _ (fun c hc => ?_)
      rcases List.mem_append.mp hc with hcn | hcl
      · exact digit_ne_underscore (hnd c hcn)
      · have : c = '.' ∨ c = 'l' ∨ c = 'o' ∨ c = 'g' := by simpa [chars] using hcl
        rcases this with rfl | rfl | rfl | rfl <;> decide
    have hint : pyInt (rstripSet ['.', 'l', 'o', 'g'] (n ++ chars (".log"))) =
        some (digitsToNat n) := by
      rw [rstripSet_digits_log n (List.all_eq_true.mpr hnd)]
      exact if_pos ⟨hn, List.all_eq_true.mpr hnd⟩
    simp only [hsplit, hsplit2, hint]
  · decide

/-- Claim C9 witness: the spec's own example,
`next("20230101_5.log") = "20230101_6.log"`. -/
theorem get_next_file_name_spec_witness :
    get_next_file_name (chars ("20230101_5.log")) =
      some (chars ("20230101_6.log")) := by
  have h := get_next_file_name_spec.1 (chars ("20230101")) (chars ("5"))
    (by decide) (by decide) (by decide) (by decide)
  simpa using h

/-- Claim C9 counterexample: `"1_2"` does not match the
`<prefix>_<n>.log` naming scheme, yet `get_next_file_name` does not fail
on it — it happily returns `"1_3.log"` (the `rstrip(".log")` + `int`
parse succeeds with nothing to strip). -/
theorem get_next_file_name_counterexample :
    get_next_file_name (chars ("1_2")) = some (chars ("1_3.log"))
    ∧ spec_file_name (chars ("1_2")) = false := by
  constructor <;> decide

/-- Claim C6 (amended): the index validation accepts a content exactly
when its *first* line is `<digits>_<digits>.log` terminated by a newline;
`re.match` is not anchored at the end, so lines after the first are never
inspected. -/
theorem validate_index_first_line_only (c : Str) :
    validate_logs_index_file_format c = true ↔
      ∃ l rest, c = l ++ '\n' :: rest ∧ spec_file_name l = true := by
  constructor
  · intro hv
    unfold validate_logs_index_file_format consumeBlock at hv
    rcases h1 : takeDigits c with ⟨d1, r1⟩
    rw [h1] at hv
    simp only at hv
    split at hv
    · simp at hv
    · split at hv
      case _ r2 =>
        rcases h2 : takeDigits r2 with ⟨d2, r3⟩
        rw [h2] at hv
        simp only at hv
        split at hv
        · simp at hv
        · split at hv
          case _ rest =>
            obtain ⟨hc_eq, hd1dig, -⟩ := takeDigits_eq h1
            obtain ⟨hr2_eq, hd2dig, -⟩ := takeDigits_eq h2
            refine ⟨d1 ++ '_' :: (d2 ++ chars (".log")), rest, ?_, ?_⟩
            · subst hc_eq
              subst hr2_eq
              simp_all [chars, List.append_assoc]
            · unfold spec_file_name
              have ht1 : takeDigits (d1 ++ '_' :: (d2 ++ chars (".log"))) =
                  (d1, '_' :: (d2 ++ chars (".log"))) :=
                takeDigits_append hd1dig (fun x hx => by
                  simp only [List.head?_cons, Option.some.injEq] at hx
                  subst hx; decide)
              have ht2 : takeDigits (d2 ++ chars (".log")) =
                  (d2, chars (".log")) :=
                takeDigits_append hd2dig (fun x hx => by
                  simp only [chars, List.head?_cons, Option.some.injEq] at hx
                  subst hx; decide)
              simp_all
          · simp at hv
      · simp at hv
  · rintro ⟨l, rest, rfl, hl⟩
    unfold spec_file_name at hl
    rcases h1 : takeDigits l with ⟨d1, r1⟩
    rw [h1] at hl
    simp only at hl
    split at hl
    case _ r2 =>
      rcases h2 : takeDigits r2 with ⟨d2, r3⟩
      rw [h2] at hl
      simp only [Bool.and_eq_true, Bool.not_eq_true', decide_eq_true_eq] at hl
      obtain ⟨⟨hd1, hd2⟩, hr3⟩ := hl
      subst hr3
      obtain ⟨hl_eq, hd1dig, -⟩ := takeDigits_eq h1
      obtain ⟨hr2_eq, hd2dig, -⟩ := takeDigits_eq h2
      have hshape : l ++ '\n' :: rest =
          d1 ++ '_' :: (d2 ++ ('.' :: 'l' :: 'o' :: 'g' :: '\n' :: rest)) := by
        subst hl_eq
        subst hr2_eq
        simp [chars, List.append_assoc]
      have ht1 : takeDigits (l ++ '\n' :: rest) =
          (d1, '_' :: (d2 ++ ('.' :: 'l' :: 'o' :: 'g' :: '\n' :: rest))) := by
        rw [hshape]
        exact takeDigits_append hd1dig (fun x hx => by
          simp only [List.head?_cons, Option.some.injEq] at hx
          subst hx; decide)
      have ht2 : takeDigits (d2 ++ ('.' :: 'l' :: 'o' :: 'g' :: '\n' :: rest)) =
          (d2, '.' :: 'l' :: 'o' :: 'g' :: '\n' :: rest) :=
        takeDigits_append hd2dig (fun x hx => by
          simp only [List.head?_cons, Option.some.injEq] at hx
          subst hx; decide)
      unfold validate_logs_index_file_format consumeBlock
      rw [ht1]
      simp [ht2, hd1, hd2]
    case _ =>
      exact absurd hl (by simp)

/-- Claim C6 witness: a fully conforming one-line listing passes on the
strength of the amended characterisation. -/
theorem validate_index_first_line_only_witness :
    validate_logs_index_file_format (chars ("12_34.log\n")) = true := by
  exact (validate_index_first_line_only (chars ("12_34.log\n"))).mpr
    ⟨chars ("12_34.log"), [], by decide, by decide⟩

/-- Claim C6 counterexample: `"1_2.log\nbad"` has the non-conforming
line `"bad"` (the second of its two lines), yet validation returns
`true` — the claim's "any single non-conforming line anywhere makes it
false" is refuted. -/
theorem validate_index_counterexample :
    validate_logs_index_file_format (chars ("1_2.log\nbad")) = true
    ∧ pySplit '\n' (chars ("1_2.log\nbad")) = [chars ("1_2.log"), chars ("bad")]
    ∧ spec_file_name (chars ("bad")) = false := by
  refine ⟨by decide, by decide, by decide⟩

/-- Claim C8: in the 404-resync snippet, with `oldest` the first line of
the fresh listing and `newest` its second-to-last line, a missing id
whose sequence is strictly below `oldest`'s forces the persisted cursor
to `oldest` (and continues with `logfile = oldest`, miss counter
untouched). -/
theorem resync_rolloff_forces_oldest (logfile : Str) (fc : Nat) (data : Str)
    (st : St) (a b : Nat)
    (h2 : ¬ (pySplit '\n' data).length < 2)
    (ha : seqOf logfile = some a)
    (hb : seqOf ((pySplit '\n' data).headD []) = some b)
    (hab : a < b) :
    resync_snippet logfile fc data st =
      some ((pySplit '\n' data).headD [], fc,
        { st with cursorFile := some ((pySplit '\n' data).headD []) }) := by
  have hb' := hb
  simp only [List.headD_eq_head?_getD] at hb'
  simp [resync_snippet, update_last_log_id, h2, ha, hb', hab]

/-- Claim C8 witness: the spec's scenario — `"20230101_3.log"` missing,
fresh index `oldest = "20230101_5.log"`, `newest = "20230101_9.log"`;
since `3 < 5` the cursor is forced to `"20230101_5.log"`. -/
theorem resync_rolloff_forces_oldest_witness :
    resync_snippet (chars ("20230101_3.log")) 0
        (chars ("20230101_5.log\n20230101_9.log\n"))
        ⟨some (chars ("20230101_2.log")), [], [], 0, 0⟩ =
      some (chars ("20230101_5.log"), 0,
        ⟨some (chars ("20230101_5.log")), [], [], 0, 0⟩) :=
  resync_rolloff_forces_oldest (chars ("20230101_3.log")) 0
    (chars ("20230101_5.log\n20230101_9.log\n"))
    ⟨some (chars ("20230101_2.log")), [], [], 0, 0⟩ 3 5
    (by decide) (by decide) (by decide) (by decide)

/-- Claim C5 (amended): when the missing id's sequence exceeds
`newest`'s, the consecutive-miss counter is incremented; once the
incremented counter exceeds 3 the cursor (and the current id) are forced
to `oldest`, *but the counter is not reset* — it keeps its incremented
value; otherwise the snippet sleeps 10 seconds and leaves the id
unchanged for the next attempt. -/
theorem resync_beyond_newest_counter (logfile data : Str) (fc : Nat)
    (st : St) (a b k : Nat)
    (h2 : ¬ (pySplit '\n' data).length < 2)
    (ha : seqOf logfile = some a)
    (hb : seqOf ((pySplit '\n' data).headD []) = some b)
    (hk : seqOf ((pySplit '\n' data).getD ((pySplit '\n' data).length - 2) []) =
      some k)
    (hab : ¬ a < b) (hka : k < a) :
    resync_snippet logfile fc data st =
      if 3 < fc + 1 then
        some ((pySplit '\n' data).headD [], fc + 1,
          { st with cursorFile := some ((pySplit '\n' data).headD []) })
      else some (logfile, fc + 1, { st with sleeps := st.sleeps ++ [10] }) := by
  have hb' := hb
  have hk' := hk
  simp only [List.headD_eq_head?_getD] at hb'
  simp only [List.getD_eq_getElem?_getD] at hk'
  simp [resync_snippet, update_last_log_id, h2, ha, hb', hk', hab, hka]

/-- Claim C5 witness: a genuine not-yet-generated 404 with miss counter 0
(`12 > 9`): the counter becomes 1 and the snippet sleeps 10 seconds,
leaving the id and the cursor unchanged. -/
theorem resync_beyond_newest_counter_witness :
    resync_snippet (chars ("20230101_12.log")) 0
        (chars ("20230101_5.log\n20230101_9.log\n"))
        ⟨some (chars ("20230101_2.log")), [], [], 0, 0⟩ =
      some (chars ("20230101_12.log"), 1,
        ⟨some (chars ("20230101_2.log")), [], [10], 0, 0⟩) :=
  resync_beyond_newest_counter (chars ("20230101_12.log"))
    (chars ("20230101_5.log\n20230101_9.log\n")) 0
    ⟨some (chars ("20230101_2.log")), [], [], 0, 0⟩ 12 5 9
    (by decide) (by decide) (by decide) (by decide) (by decide) (by decide)

/-- Claim C5 counterexample: with the consecutive-miss counter at 3, the
next miss (`12 > 9`) pushes it past the threshold: the cursor and id are
forced to `oldest` — but the counter emerges as 4, not 0; the outcome the
claim demands (counter reset to 0) is explicitly not what the code
produces. -/
theorem resync_counter_not_reset_counterexample :
    resync_snippet (chars ("20230101_12.log")) 3
        (chars ("20230101_5.log\n20230101_9.log\n"))
        ⟨some (chars ("20230101_2.log")), [], [], 0, 0⟩ =
      some (chars ("20230101_5.log"), 4,
        ⟨some (chars ("20230101_5.log")), [], [], 0, 0⟩)
    ∧ resync_snippet (chars ("20230101_12.log")) 3
        (chars ("20230101_5.log\n20230101_9.log\n"))
        ⟨some (chars ("20230101_2.log")), [], [], 0, 0⟩ ≠
      some (chars ("20230101_5.log"), 0,
        ⟨some (chars ("20230101_5.log")), [], [], 0, 0⟩) := by
  refine ⟨by decide, by decide⟩

/-! Helper facts about the retry-loop dispatch strings. -/

lemma nf_ne_ok : chars ("NOT_FOUND") ≠ chars ("OK") := by decide

lemma nf_ne_404 : chars ("NOT_FOUND") ≠ chars ("404_NOT_FOUND") := by decide

lemma bareE_ne_ok :
    result_fst (DlRes.bare (chars ("ERROR"))) ≠ chars ("OK") := by decide

lemma bareE_ne_404 :
    result_fst (DlRes.bare (chars ("ERROR"))) ≠ chars ("404_NOT_FOUND") := by
  decide

lemma bareE_ne_nf_err :
    ¬(result_fst (DlRes.bare (chars ("ERROR"))) = chars ("NOT_FOUND") ∨
      result_fst (DlRes.bare (chars ("ERROR"))) = chars ("ERROR")) := by decide

/-- Once the attempt counter passes 3 the loop returns `False`, whatever
fuel remains. -/
lemma go_exit (dl : Nat → HttpResp) (idx : Nat → Str)
    (process : Str → Str → Bool) (running : Bool) (w fuel counter fc : Nat)
    (lf : Str) (st : St) (hc : ¬ counter ≤ 3) :
    handle_file_go dl idx process running w fuel counter fc lf st =
      .ret false st := by
  cases fuel <;> (rw [handle_file_go]; exact if_neg hc)

/-- One loop iteration on a `("NOT_FOUND", _)` download result: the
counter advances by one, one download is consumed, and (when enabled and
the counter is still low) a sleep is recorded. -/
lemma go_step_notfound (dl : Nat → HttpResp) (idx : Nat → Str)
    (process : Str → Str → Bool) (w fuel counter fc : Nat) (lf : Str)
    (st : St) (hc : counter ≤ 3)
    (h : result_fst (download_log_file (dl st.dlCount)) = chars ("NOT_FOUND")) :
    handle_file_go dl idx process true w (fuel + 1) counter fc lf st =
      handle_file_go dl idx process true w fuel (counter + 1) fc lf
        { st with
          dlCount := st.dlCount + 1
          sleeps := st.sleeps ++
            (if 0 < w ∧ counter + 1 ≤ 2 then [w] else []) } := by
  rw [handle_file_go]
  rw [if_pos hc, if_pos rfl]
  simp only [h, if_neg nf_ne_ok, if_neg nf_ne_404, if_pos (Or.inl rfl)]
  by_cases hw : 0 < w ∧ counter ≤ 1
  · simp [hw]
  · simp [hw]

/-- One loop iteration on the bare-string `"ERROR"` download result (the
exception path of `download_log_file`): `result[0]` is `"E"`, no branch
matches, so *nothing* is counted — only a download and (for low counters)
a sleep happen, and the loop repeats with the same counter. -/
lemma go_step_bare_error (dl : Nat → HttpResp) (idx : Nat → Str)
    (process : Str → Str → Bool) (w fuel counter fc : Nat) (lf : Str)
    (st : St) (hc : counter ≤ 3)
    (h : download_log_file (dl st.dlCount) = .bare (chars ("ERROR"))) :
    handle_file_go dl idx process true w (fuel + 1) counter fc lf st =
      handle_file_go dl idx process true w fuel counter fc lf
        { st with
          dlCount := st.dlCount + 1
          sleeps := st.sleeps ++
            (if 0 < w ∧ counter ≤ 2 then [w] else []) } := by
  rw [handle_file_go]
  rw [if_pos hc, if_pos rfl]
  simp only [h, if_neg bareE_ne_ok, if_neg bareE_ne_404,
    if_neg bareE_ne_nf_err]
  by_cases hw : 0 < w ∧ counter ≤ 2
  · simp [hw]
  · simp [hw]

/-- One loop iteration on an `("OK", content)` result whose processing
fails: the raw content goes verbatim into the quarantine under the
current file name and the loop breaks out with failure at once. -/
lemma go_step_ok_fail (dl : Nat → HttpResp) (idx : Nat → Str)
    (process : Str → Str → Bool) (w fuel counter fc : Nat) (lf : Str)
    (st : St) (content : Str) (hc : counter ≤ 3)
    (h : download_log_file (dl st.dlCount) = .tup (chars ("OK")) (some content))
    (hp : process lf content = false) :
    handle_file_go dl idx process true w (fuel + 1) counter fc lf st =
      .ret false { st with
        dlCount := st.dlCount + 1
        quarantine := st.quarantine ++ [(lf, content)] } := by
  rw [handle_file_go]
  rw [if_pos hc, if_pos rfl]
  simp [h, result_fst, result_snd, hp]

/-- If every download raises (transport error, 401, 429, other HTTP
errors), `handle_file_go` never returns: whatever the fuel, it is still
looping.  The culprit is the bare-string `"ERROR"` return value of
`download_log_file`. -/
lemma go_err_diverges (dl : Nat → HttpResp) (idx : Nat → Str)
    (process : Str → Str → Bool) (w : Nat) (lf : Str)
    (h : ∀ i, ∃ e, request_file_content (dl i) = Except.error e) :
    ∀ fuel st,
      (handle_file_go dl idx process true w fuel 0 0 lf st).isFuelOut = true := by
  intro fuel
  induction fuel with
  | zero =>
    intro st
    rw [handle_file_go]
    simp [HFOut.isFuelOut]
  | succ fuel ih =>
    intro st
    obtain ⟨e, he⟩ := h st.dlCount
    have hdl : download_log_file (dl st.dlCount) = .bare (chars ("ERROR")) := by
      unfold download_log_file
      rw [he]
    rw [go_step_bare_error dl idx process w fuel 0 0 lf st (by decide) hdl]
    exact ih _

/-- When no download attempt ever maps to the `"404_NOT_FOUND"` tag, the
resync snippet never runs, so any normal return of the loop leaves the
cursor file exactly as it was. -/
lemma go_ret_cursor (dl : Nat → HttpResp) (idx : Nat → Str)
    (process : Str → Str → Bool) (w : Nat)
    (h404 : ∀ i, result_fst (download_log_file (dl i)) ≠ chars ("404_NOT_FOUND")) :
    ∀ fuel counter fc lf st b st',
      handle_file_go dl idx process true w fuel counter fc lf st = .ret b st' →
        st'.cursorFile = st.cursorFile := by
  intro fuel
  induction fuel with
  | zero =>
    intro counter fc lf st b st' hret
    rw [handle_file_go] at hret
    by_cases hc : counter ≤ 3
    · rw [if_pos hc] at hret
      exact absurd hret (by simp)
    · rw [if_neg hc] at hret
      obtain ⟨-, rfl⟩ : false = b ∧ st = st' := by
        simpa using hret
      rfl
  | succ fuel ih =>
    intro counter fc lf st b st' hret
    by_cases hc : counter ≤ 3
    · rw [handle_file_go, if_pos hc, if_pos rfl] at hret
      split at hret
      · -- "OK" branch: a string content returns records with the cursor
        -- intact either way; a None content raises (never a `.ret`)
        split at hret
        · split at hret <;>
            (obtain ⟨-, rfl⟩ : _ ∧ _ = st' := by simpa using hret) <;> rfl
        · exact absurd hret (by simp)
      · split at hret
        · -- "404_NOT_FOUND" branch: impossible under `h404`
          exact absurd (by assumption) (h404 st.dlCount)
        · split at hret
          · -- "NOT_FOUND" / "ERROR": counted retry, recurse
            have := ih _ _ _ _ _ _ hret
            rw [this]
            split <;> rfl
          · -- unmatched tag (bare "ERROR"): uncounted retry, recurse
            have := ih _ _ _ _ _ _ hret
            rw [this]
            split <;> rfl
    · rw [go_exit dl idx process true w _ counter fc lf st hc] at hret
      obtain ⟨-, rfl⟩ : false = b ∧ st = st' := by
        simpa using hret
      rfl

/-- Claim C1: the attempt budget.  First half (which holds): when every
attempt yields the *transient* not-found (`("NOT_FOUND", ...)`, the empty
response), each attempt increments the counter and `handle_file` returns
failure after exactly 4 attempts, leaving cursor and quarantine alone.
Second half (the bug): when every attempt raises a transport/connection
error, `download_log_file` returns the bare string `"ERROR"` instead of
the pair `("ERROR", ...)` its own caller tests for, so no branch counts
the attempt — the loop never returns, for any fuel.  The claim's "at most
4 attempts" is violated on the transport-error half. -/
theorem handle_file_attempt_budget :
    (∀ (dl : Nat → HttpResp) (idx : Nat → Str) (process : Str → Str → Bool)
        (w : Nat) (lf : Str) (st : St),
      (∀ i, i < 4 →
        result_fst (download_log_file (dl (st.dlCount + i))) =
          chars ("NOT_FOUND")) →
      ∀ fuel, ∃ stF,
        handle_file dl idx process true w lf st (fuel + 4) = .ret false stF
        ∧ stF.dlCount = st.dlCount + 4
        ∧ stF.cursorFile = st.cursorFile
        ∧ stF.quarantine = st.quarantine)
    ∧ (∀ (dl : Nat → HttpResp) (idx : Nat → Str) (process : Str → Str → Bool)
        (w : Nat) (lf : Str),
      (∀ i, ∃ e, request_file_content (dl i) = Except.error e) →
      ∀ fuel st,
        (handle_file dl idx process true w lf st fuel).isFuelOut = true) := by
  constructor
  · intro dl idx process w lf st h fuel
    have h0 := h 0 (by norm_num)
    have h1 := h 1 (by norm_num)
    have h2 := h 2 (by norm_num)
    have h3 := h 3 (by norm_num)
    rw [Nat.add_zero] at h0
    refine ⟨_,
      (go_step_notfound dl idx process w (fuel + 3) 0 0 lf st
        (by norm_num) h0).trans
        ((go_step_notfound dl idx process w (fuel + 2) 1 0 lf _
          (by norm_num) h1).trans
          ((go_step_notfound dl idx process w (fuel + 1) 2 0 lf _
            (by norm_num) h2).trans
            ((go_step_notfound dl idx process w fuel 3 0 lf _
              (by norm_num) h3).trans
              (go_exit dl idx process true w fuel 4 0 lf _ (by norm_num))))),
      ?_, ?_, ?_⟩
    · simp
    · simp
    · simp
  · intro dl idx process w lf h fuel st
    exact go_err_diverges dl idx process w lf h fuel st

/-- Claim C1 witness: a concrete transient trace (status 200 with an
empty body, the one response shape the source maps to `("NOT_FOUND", "")`)
returns failure after exactly 4 downloads, and a concrete transport-error
trace (status 500 every time) is still looping after 6 fuel units. -/
theorem handle_file_attempt_budget_witness :
    (∃ stF,
      handle_file (fun _ => (⟨200, []⟩ : HttpResp)) (fun _ => [])
          (fun _ _ => true) true 3 (chars ("1_2.log")) ⟨none, [], [], 0, 0⟩ 4 =
        .ret false stF
      ∧ stF.dlCount = 4 ∧ stF.cursorFile = none ∧ stF.quarantine = [])
    ∧ (handle_file (fun _ => (⟨500, []⟩ : HttpResp)) (fun _ => [])
        (fun _ _ => true) true 3 (chars ("1_2.log")) ⟨none, [], [], 0, 0⟩
        6).isFuelOut = true := by
  constructor
  · obtain ⟨stF, e1, e2, e3, e4⟩ := handle_file_attempt_budget.1
      (fun _ => (⟨200, []⟩ : HttpResp)) (fun _ => []) (fun _ _ => true) 3
      (chars ("1_2.log")) ⟨none, [], [], 0, 0⟩
      (fun _ _ => (by decide :
        result_fst (download_log_file (⟨200, []⟩ : HttpResp)) =
          chars ("NOT_FOUND"))) 0
    exact ⟨stF, e1, e2, e3, e4⟩
  · exact handle_file_attempt_budget.2 (fun _ => (⟨500, []⟩ : HttpResp))
      (fun _ => []) (fun _ _ => true) 3 (chars ("1_2.log"))
      (fun _ => ⟨chars ("Connection error"), (rfl :
        request_file_content (⟨500, []⟩ : HttpResp) =
          Except.error (chars ("Connection error")))⟩) 6 ⟨none, [], [], 0, 0⟩

lemma req_error_of_status_401 (r : HttpResp) (h : r.status = 401) :
    request_file_content r = Except.error (chars ("Authorization error")) := by
  simp [request_file_content, h]

lemma req_error_of_status_429 (r : HttpResp) (h : r.status = 429) :
    request_file_content r = Except.error (chars ("Rate limit error")) := by
  simp [request_file_content, h]

lemma download_log_file_bare (r : HttpResp) (e : Str)
    (h : request_file_content r = Except.error e) :
    download_log_file r = .bare (chars ("ERROR")) := by
  unfold download_log_file
  rw [h]

/-- Claim C2 (amended): a 401 raises an `"Authorization error"` and a 429
a `"Rate limit error"` inside `request_file_content`, but
`download_log_file` catches every exception and returns the generic bare
string `"ERROR"`.  Nothing terminates the process: inside `handle_file`
the unrecognised bare value matches no branch, so the call loops
indefinitely, re-downloading the same file. -/
theorem http_fatal_codes_swallowed :
    (∀ r : HttpResp, r.status = 401 →
      request_file_content r = Except.error (chars ("Authorization error")))
    ∧ (∀ r : HttpResp, r.status = 429 →
      request_file_content r = Except.error (chars ("Rate limit error")))
    ∧ (∀ (r : HttpResp) (e : Str), request_file_content r = Except.error e →
      download_log_file r = .bare (chars ("ERROR")))
    ∧ (∀ (dl : Nat → HttpResp) (idx : Nat → Str) (process : Str → Str → Bool)
        (w : Nat) (lf : Str),
      (∀ i, (dl i).status = 401 ∨ (dl i).status = 429) →
      ∀ fuel st,
        (handle_file dl idx process true w lf st fuel).isFuelOut = true) := by
  refine ⟨req_error_of_status_401, req_error_of_status_429,
    download_log_file_bare, ?_⟩
  intro dl idx process w lf h fuel st
  refine go_err_diverges dl idx process w lf (fun i => ?_) fuel st
  rcases h i with h' | h'
  · exact ⟨_, req_error_of_status_401 _ h'⟩
  · exact ⟨_, req_error_of_status_429 _ h'⟩

/-- Claim C2 witness: a persistent 429 keeps `handle_file` spinning (6
fuel units consumed without a return). -/
theorem http_fatal_codes_swallowed_witness :
    request_file_content ⟨429, []⟩ =
      Except.error (chars ("Rate limit error"))
    ∧ (handle_file (fun _ => (⟨429, []⟩ : HttpResp)) (fun _ => [])
        (fun _ _ => true) true 3 (chars ("9_9.log")) ⟨none, [], [], 0, 0⟩
        6).isFuelOut = true :=
  ⟨http_fatal_codes_swallowed.2.1 ⟨429, []⟩ rfl,
    http_fatal_codes_swallowed.2.2.2 (fun _ => (⟨429, []⟩ : HttpResp))
      (fun _ => []) (fun _ _ => true) 3 (chars ("9_9.log"))
      (fun _ => Or.inr rfl) 6 ⟨none, [], [], 0, 0⟩⟩

/-- Claim C2 counterexample: with every download answering 401 (resp.
429), `handle_file` neither terminates the process nor stops retrying:
the distinct exceptions are flattened into the bare `"ERROR"` string and
the call is still looping after 8 iterations — the claimed "fatal,
process-terminating" behaviour does not happen. -/
theorem auth_rate_limit_not_fatal_counterexample :
    request_file_content ⟨401, []⟩ =
      Except.error (chars ("Authorization error"))
    ∧ download_log_file ⟨401, []⟩ = DlRes.bare (chars ("ERROR"))
    ∧ (handle_file (fun _ => (⟨401, []⟩ : HttpResp)) (fun _ => [])
        (fun _ _ => true) true 3 (chars ("1_2.log")) ⟨none, [], [], 0, 0⟩
        8).isFuelOut = true
    ∧ (handle_file (fun _ => (⟨429, []⟩ : HttpResp)) (fun _ => [])
        (fun _ _ => true) true 3 (chars ("1_2.log")) ⟨none, [], [], 0, 0⟩
        8).isFuelOut = true := by
  refine ⟨rfl, by decide, by decide, by decide⟩

/-- Claim C4: a downloaded-OK file whose decrypt/deliver processing fails
is quarantined at once — the raw content is appended verbatim to the
`fail` area under the file's own name, `handle_file` returns failure
immediately (exactly one download consumed, no further attempts), and the
cursor file is untouched. -/
theorem quarantine_on_processing_failure (dl : Nat → HttpResp)
    (idx : Nat → Str) (process : Str → Str → Bool) (w : Nat)
    (lf content : Str) (st : St) (fuel : Nat)
    (hdl : download_log_file (dl st.dlCount) =
      DlRes.tup (chars ("OK")) (some content))
    (hp : process lf content = false) :
    handle_file dl idx process true w lf st (fuel + 1) =
      .ret false { st with
        dlCount := st.dlCount + 1
        quarantine := st.quarantine ++ [(lf, content)] } :=
  go_step_ok_fail dl idx process w fuel 0 0 lf st content (by norm_num) hdl hp

/-- Claim C4 witness: a concrete OK download whose processing fails ends
up quarantined under its own name with the raw bytes, failure reported,
cursor intact. -/
theorem quarantine_on_processing_failure_witness :
    handle_file (fun _ => (⟨200, chars ("rawbytes")⟩ : HttpResp))
        (fun _ => []) (fun _ _ => false) true 3 (chars ("1_2.log"))
        ⟨some (chars ("1_1.log")), [], [], 0, 0⟩ 5 =
      .ret false
        ⟨some (chars ("1_1.log")), [(chars ("1_2.log"), chars ("rawbytes"))],
          [], 1, 0⟩ :=
  quarantine_on_processing_failure (fun _ => (⟨200, chars ("rawbytes")⟩ : HttpResp))
    (fun _ => []) (fun _ _ => false) 3 (chars ("1_2.log")) (chars ("rawbytes"))
    ⟨some (chars ("1_1.log")), [], [], 0, 0⟩ 4 (by decide) rfl

/-- Claim C3 (amended): in a STEADY iteration *in which no download
attempt returns 404* (so the cursor-mutating resync snippet never runs),
a returning `handle_file` leaves the cursor untouched, and then: on
success the persisted cursor ends exactly at `next`; on failure it ends
exactly where it started.  (When a 404 occurs the resync snippet may move
the cursor even though the iteration fails — see the counterexample.) -/
theorem steady_cursor_no_resync (dl : Nat → HttpResp) (idx : Nat → Str)
    (process : Str → Str → Bool) (st : St) (nf : Str) (fuel : Nat)
    (b : Bool) (st₁ : St)
    (hn : get_next_file_name (get_last_log_id st.cursorFile) = some nf)
    (h404 : ∀ i, result_fst (download_log_file (dl i)) ≠ chars ("404_NOT_FOUND"))
    (hret : handle_file dl idx process true 3 nf st fuel = .ret b st₁) :
    st₁.cursorFile = st.cursorFile
    ∧ (b = true → steady_iteration dl idx process true st fuel =
        .done { st₁ with cursorFile := some nf })
    ∧ (b = false → steady_iteration dl idx process true st fuel =
        .done st₁) := by
  have hcur : st₁.cursorFile = st.cursorFile :=
    go_ret_cursor dl idx process 3 h404 fuel 0 0 nf st b st₁ hret
  refine ⟨hcur, ?_, ?_⟩
  · rintro rfl
    unfold steady_iteration
    simp [hn, hret, hcur, update_last_log_id]
  · rintro rfl
    unfold steady_iteration
    simp [hn, hret]

/-- Claim C3 witness: a remote that persistently answers 200 with an
empty body (the transient `("NOT_FOUND", "")` case) makes the iteration
fail after the four attempts and the cursor file is exactly what it
was. -/
theorem steady_cursor_no_resync_witness :
    (⟨some (chars ("1_1.log")), [], [3, 3], 4, 0⟩ : St).cursorFile =
      (⟨some (chars ("1_1.log")), [], [], 0, 0⟩ : St).cursorFile
    ∧ steady_iteration (fun _ => (⟨200, []⟩ : HttpResp)) (fun _ => [])
        (fun _ _ => true) true ⟨some (chars ("1_1.log")), [], [], 0, 0⟩ 9 =
      .done ⟨some (chars ("1_1.log")), [], [3, 3], 4, 0⟩ := by
  have h := steady_cursor_no_resync (fun _ => (⟨200, []⟩ : HttpResp))
    (fun _ => []) (fun _ _ => true) ⟨some (chars ("1_1.log")), [], [], 0, 0⟩
    (chars ("1_2.log")) 9 false ⟨some (chars ("1_1.log")), [], [3, 3], 4, 0⟩
    (by decide)
    (fun _ => (by decide :
      result_fst (download_log_file (⟨200, []⟩ : HttpResp)) ≠
        chars ("404_NOT_FOUND")))
    (by decide)
  exact ⟨h.1, h.2.2 rfl⟩

/-- Claim C3 counterexample: starting from cursor `"20230101_2.log"`,
every download of `next = "20230101_3.log"` answers 404 and the fresh
index lists `5 .. 9`; `handle_file` *fails* (attempts exhausted), yet the
persisted cursor after the iteration is `"20230101_5.log"`, not the
claimed unchanged `"20230101_2.log"` — the resync snippet moved it. -/
theorem steady_resync_moves_cursor_counterexample :
    handle_file (fun _ => (⟨404, []⟩ : HttpResp))
        (fun _ => chars ("20230101_5.log\n20230101_9.log\n"))
        (fun _ _ => true) true 3 (chars ("20230101_3.log"))
        ⟨some (chars ("20230101_2.log")), [], [], 0, 0⟩ 9 =
      .ret false ⟨some (chars ("20230101_5.log")), [], [3, 3], 4, 4⟩
    ∧ steady_iteration (fun _ => (⟨404, []⟩ : HttpResp))
        (fun _ => chars ("20230101_5.log\n20230101_9.log\n"))
        (fun _ _ => true) true
        ⟨some (chars ("20230101_2.log")), [], [], 0, 0⟩ 9 =
      .done ⟨some (chars ("20230101_5.log")), [], [3, 3], 4, 4⟩
    ∧ some (chars ("20230101_5.log")) ≠ some (chars ("20230101_2.log")) := by
  refine ⟨by decide, by decide, by decide⟩

lemma no_ne_yes : chars ("NO") ≠ chars ("YES") := by decide

/-- Claim C7 (amended): only the SFTP upload and the compression catch
their own failures.  A compression failure never fails the file (with
SFTP off, the dispatcher succeeds whatever `gzipOk` is); the SFTP upload
failure is caught too, but with SFTP on the dispatcher *always* raises
right after the upload — the compression call dereferences the
never-assigned attribute `self.upfile` — failing the file even when every
sink succeeded; and a syslog-emission or local-persistence failure
propagates immediately, skipping every remaining step and failing the
file. -/
theorem dispatcher_isolation (cfg : DispatchCfg)
    (emitOk localOk sftpOk gzipOk : Bool) (pick : Nat) :
    (cfg.sftpTransfer = chars ("NO") →
      (cfg.syslogEnable = chars ("YES") → emitOk = true) →
      (cfg.saveLocally = chars ("YES") → localOk = true) →
      (handle_log_decrypted_content cfg emitOk localOk sftpOk gzipOk
        pick).fst = none
      ∧ (handle_log_decrypted_content cfg emitOk localOk sftpOk gzipOk
        pick).snd.gzipRan = true)
    ∧ (cfg.sftpTransfer = chars ("YES") →
      (cfg.syslogEnable = chars ("YES") → emitOk = true) →
      (cfg.saveLocally = chars ("YES") → localOk = true) →
      (handle_log_decrypted_content cfg emitOk localOk sftpOk gzipOk
        pick).fst = some (chars ("AttributeError"))
      ∧ (handle_log_decrypted_content cfg emitOk localOk sftpOk gzipOk
        pick).snd.sftpUploaded = true)
    ∧ (cfg.syslogEnable = chars ("YES") → emitOk = false →
      (handle_log_decrypted_content cfg emitOk localOk sftpOk gzipOk
        pick).fst = some (chars ("syslog emitter raised"))
      ∧ (handle_log_decrypted_content cfg emitOk localOk sftpOk gzipOk
        pick).snd.localDone = false
      ∧ (handle_log_decrypted_content cfg emitOk localOk sftpOk gzipOk
        pick).snd.sftpUploaded = false
      ∧ (handle_log_decrypted_content cfg emitOk localOk sftpOk gzipOk
        pick).snd.gzipRan = false)
    ∧ (cfg.saveLocally = chars ("YES") →
      (cfg.syslogEnable = chars ("YES") → emitOk = true) → localOk = false →
      (handle_log_decrypted_content cfg emitOk localOk sftpOk gzipOk
        pick).fst = some (chars ("local append raised"))
      ∧ (handle_log_decrypted_content cfg emitOk localOk sftpOk gzipOk
        pick).snd.sftpUploaded = false
      ∧ (handle_log_decrypted_content cfg emitOk localOk sftpOk gzipOk
        pick).snd.gzipRan = false) := by
  refine ⟨?_, ?_, ?_, ?_⟩
  · intro hno hsy hsv
    have hc1 : ¬(cfg.syslogEnable = chars ("YES") ∧ emitOk = false) := by
      rintro ⟨h, h'⟩
      rw [hsy h] at h'
      simp at h'
    have hc2 : ¬(cfg.saveLocally = chars ("YES") ∧ localOk = false) := by
      rintro ⟨h, h'⟩
      rw [hsv h] at h'
      simp at h'
    constructor <;>
      simp [handle_log_decrypted_content, hc1, hc2, hno, no_ne_yes]
  · intro hyes hsy hsv
    have hc1 : ¬(cfg.syslogEnable = chars ("YES") ∧ emitOk = false) := by
      rintro ⟨h, h'⟩
      rw [hsy h] at h'
      simp at h'
    have hc2 : ¬(cfg.saveLocally = chars ("YES") ∧ localOk = false) := by
      rintro ⟨h, h'⟩
      rw [hsv h] at h'
      simp at h'
    constructor <;> simp [handle_log_decrypted_content, hc1, hc2, hyes]
  · intro hsy hemit
    refine ⟨?_, ?_, ?_, ?_⟩ <;>
      simp [handle_log_decrypted_content, hsy, hemit]
  · intro hsv hsy hl
    have hc1 : ¬(cfg.syslogEnable = chars ("YES") ∧ emitOk = false) := by
      rintro ⟨h, h'⟩
      rw [hsy h] at h'
      simp at h'
    refine ⟨?_, ?_, ?_⟩ <;>
      (simp [handle_log_decrypted_content, hc1, hsv, hl]; try split) <;> simp

/-- Claim C7 witness: a compression failure alone (SFTP off) does not
fail the file, and with SFTP on the dispatcher raises the attribute error
after the upload even though the upload itself failed silently. -/
theorem dispatcher_isolation_witness :
    (handle_log_decrypted_content
        ⟨chars ("YES"), chars ("YES"), chars ("NO"), chars ("10.0.0.1")⟩
        true true true false 0).fst = none
    ∧ (handle_log_decrypted_content
        ⟨chars ("NO"), chars ("NO"), chars ("YES"), chars ("h")⟩
        true true false true 0).fst = some (chars ("AttributeError")) := by
  constructor
  · exact ((dispatcher_isolation
      ⟨chars ("YES"), chars ("YES"), chars ("NO"), chars ("10.0.0.1")⟩
      true true true false 0).1 rfl (fun _ => rfl) (fun _ => rfl)).1
  · exact ((dispatcher_isolation
      ⟨chars ("NO"), chars ("NO"), chars ("YES"), chars ("h")⟩
      true true false true 0).2.1 rfl
      (fun h => absurd h (by decide)) (fun h => absurd h (by decide))).1

/-- Claim C7 counterexample: with syslog and local persistence enabled
(SFTP off), a syslog-emission failure aborts the dispatcher before the
local step runs (`localDone = false`, `gzipRan = false`) and the raised
error makes `handle_file` quarantine the file and report failure — the
failure is neither isolated nor harmless to the overall file. -/
theorem dispatcher_sink_failure_counterexample :
    (handle_log_decrypted_content
        ⟨chars ("YES"), chars ("YES"), chars ("NO"),
          chars ("10.0.0.1,10.0.0.2")⟩ false true true true 0).fst =
      some (chars ("syslog emitter raised"))
    ∧ (handle_log_decrypted_content
        ⟨chars ("YES"), chars ("YES"), chars ("NO"),
          chars ("10.0.0.1,10.0.0.2")⟩ false true true true 0).snd.localDone =
      false
    ∧ (handle_log_decrypted_content
        ⟨chars ("YES"), chars ("YES"), chars ("NO"),
          chars ("10.0.0.1,10.0.0.2")⟩ false true true true 0).snd.gzipRan =
      false
    ∧ handle_file (fun _ => (⟨200, chars ("payload")⟩ : HttpResp))
        (fun _ => [])
        (dispatch_process
          ⟨chars ("YES"), chars ("YES"), chars ("NO"),
            chars ("10.0.0.1,10.0.0.2")⟩ false true true true 0)
        true 3 (chars ("7_7.log")) ⟨some (chars ("7_6.log")), [], [], 0, 0⟩ 5 =
      .ret false
        ⟨some (chars ("7_6.log")), [(chars ("7_7.log"), chars ("payload"))],
          [], 1, 0⟩ := by
  refine ⟨by decide, by decide, by decide, by decide⟩

end LogsDownloader
